import Mathlib

/-!
Verification of the daily-accrual dashboard (`final.py`).

The script computes, from the current wall-clock time in a fixed time zone,
how many seconds of the local day have elapsed, scales fixed per-second rates
by that number to obtain "so far today" quantities, derives comparison values
by fixed ratios, and formats large numbers into abbreviated strings.

Modelling conventions:
* Python floats are modelled as exact rationals (`ℚ`).  Every concrete value
  appearing in the theorems below (integers, 999.6, halves, tenths) is exactly
  representable as a double, and none of the roundings performed on them sits
  at a tie created by binary representation error, so the rational model and
  the float computation agree on all evaluated inputs.
* A Python `datetime` is modelled by its broken-down fields.  The field values
  are deliberately left unbounded naturals so that the clamp in
  `time_elapsed_seconds` is exercised even by out-of-range raw values.
* CPython's `datetime.__sub__` returns the *naive* field-wise difference
  whenever both operands carry the identical `tzinfo` object, without
  consulting `utcoffset`.  In `time_elapsed_seconds`,
  `midnight = now.replace(hour=0, minute=0, second=0, microsecond=0)` keeps
  `now`'s `tzinfo` object, so `(now - midnight).total_seconds()` is exactly
  the wall-clock seconds read off `now`'s time-of-day fields.
-/

namespace Dashboard

/-- Source: `SECONDS_PER_DAY = 24 * 60 * 60` (final.py line 9). -/
def SECONDS_PER_DAY : ℚ := 24 * 60 * 60

/-- Source: `TOTAL_DAILY_PLASTIC_KG = 1_260_273_973` (final.py line 14). -/
def TOTAL_DAILY_PLASTIC_KG : ℚ := 1260273973

/-- Source: `PLASTIC_KG_PER_SECOND = TOTAL_DAILY_PLASTIC_KG / SECONDS_PER_DAY` (line 15). -/
def PLASTIC_KG_PER_SECOND : ℚ := TOTAL_DAILY_PLASTIC_KG / SECONDS_PER_DAY

/-- Source: `TOTAL_DAILY_OCEAN_PLASTIC_KG = 30_136_986` (final.py line 17). -/
def TOTAL_DAILY_OCEAN_PLASTIC_KG : ℚ := 30136986

/-- Source: `OCEAN_PLASTIC_KG_PER_SECOND = TOTAL_DAILY_OCEAN_PLASTIC_KG / SECONDS_PER_DAY` (line 18). -/
def OCEAN_PLASTIC_KG_PER_SECOND : ℚ := TOTAL_DAILY_OCEAN_PLASTIC_KG / SECONDS_PER_DAY

/-- Source: `TOTAL_DAILY_MICROPLASTIC_MG = 714.0` (final.py line 20). -/
def TOTAL_DAILY_MICROPLASTIC_MG : ℚ := 714

/-- Source: `MICROPLASTIC_MG_PER_SECOND = TOTAL_DAILY_MICROPLASTIC_MG / SECONDS_PER_DAY` (line 21). -/
def MICROPLASTIC_MG_PER_SECOND : ℚ := TOTAL_DAILY_MICROPLASTIC_MG / SECONDS_PER_DAY

/-- A Python `datetime` value: its broken-down local wall-clock fields.
Fields are unbounded on purpose (see the module docstring): the clamp in
`time_elapsed_seconds` must hold even for out-of-range raw components. -/
structure Datetime where
  year : ℕ
  month : ℕ
  day : ℕ
  hour : ℕ
  minute : ℕ
  second : ℕ
  microsecond : ℕ

/-- Source: `(now - now.replace(hour=0, minute=0, second=0, microsecond=0)).total_seconds()`:
since both operands share the identical `tzinfo` object, CPython returns the
naive difference, i.e. the seconds read off the time-of-day fields. -/
def rawElapsedSeconds (now : Datetime) : ℚ :=
  now.hour * 3600 + now.minute * 60 + now.second + (now.microsecond : ℚ) / 1000000

/-- Source: `time_elapsed_seconds` (final.py lines 32-35):
`max(0, min(elapsed, SECONDS_PER_DAY))` applied to the naive difference. -/
def time_elapsed_seconds (now : Datetime) : ℚ :=
  max 0 (min (rawElapsedSeconds now) SECONDS_PER_DAY)

/-- The derived elapsed fraction of the day, `time_elapsed_seconds(now) / 86400`
(the quantity the spec calls `elapsed_fraction`; in the code it appears fused
into the per-second rates, e.g. `PLASTIC_KG_PER_SECOND * time_elapsed_seconds(now)
= TOTAL_DAILY_PLASTIC_KG * elapsed_fraction(now)`). -/
def elapsed_fraction (now : Datetime) : ℚ :=
  time_elapsed_seconds now / SECONDS_PER_DAY

/-- Source: `plastic_produced_so_far` (final.py lines 42-43). -/
def plastic_produced_so_far (now : Datetime) : ℚ :=
  PLASTIC_KG_PER_SECOND * time_elapsed_seconds now

/-- Source: `ocean_plastic_entered_so_far` (final.py lines 45-46). -/
def ocean_plastic_entered_so_far (now : Datetime) : ℚ :=
  OCEAN_PLASTIC_KG_PER_SECOND * time_elapsed_seconds now

/-- Source: `microplastic_ingested_so_far` (final.py lines 48-49). -/
def microplastic_ingested_so_far (now : Datetime) : ℚ :=
  MICROPLASTIC_MG_PER_SECOND * time_elapsed_seconds now

/-- The accrual pattern shared by the three `*_so_far` functions, with the
daily total `D` and the elapsed fraction `f` abstracted: per-second rate
`D / 86400` multiplied by elapsed seconds `f * 86400`. -/
def accrued_quantity (D f : ℚ) : ℚ :=
  (D / SECONDS_PER_DAY) * (f * SECONDS_PER_DAY)

/-- Source: `plastic_to_cars = plastic_produced / 1500` (final.py line 169). -/
def plastic_to_cars (plastic_produced : ℚ) : ℚ :=
  plastic_produced / 1500

/-- Source: `ocean_to_statues = ocean_plastic / 204116` (final.py line 172). -/
def ocean_to_statues (ocean_plastic : ℚ) : ℚ :=
  ocean_plastic / 204116

/-- Source: `credit_card_equiv = ((microplastic * 7) / 5000) * 100` (final.py line 175). -/
def credit_card_equiv (microplastic : ℚ) : ℚ :=
  ((microplastic * 7) / 5000) * 100

/-- The spec's other variant of the credit-card metric,
`(microplastic / 5000) * 7 * 100`, stated for the refinement comparison of C9
(this variant is from the spec's words, not from `final.py`). -/
def credit_card_equiv_variant (microplastic : ℚ) : ℚ :=
  (microplastic / 5000) * 7 * 100

/-- Source: `now` has all time-of-day fields zero: exactly local midnight. -/
def isLocalMidnight (now : Datetime) : Prop :=
  now.hour = 0 ∧ now.minute = 0 ∧ now.second = 0 ∧ now.microsecond = 0

/-- Source: `now` is exactly 12:00:00 local time. -/
def isLocalNoon (now : Datetime) : Prop :=
  now.hour = 12 ∧ now.minute = 0 ∧ now.second = 0 ∧ now.microsecond = 0

/-- Two datetimes fall on the same calendar day (in the fixed reference zone,
which is the only zone the script uses). -/
def sameCalendarDay (a b : Datetime) : Prop :=
  a.year = b.year ∧ a.month = b.month ∧ a.day = b.day

end Dashboard

namespace Dashboard

/- ---------- Number formatting: `k_format` (final.py lines 51-59) ---------- -/

/-- Round a rational to the nearest integer, ties to even — the rounding used
by CPython float formatting (`format(x, '.0f')` and friends). -/
def roundHalfEven (q : ℚ) : ℤ :=
  let f := Int.floor q
  if q - f < 1/2 then f
  else if 1/2 < q - f then f + 1
  else if f % 2 = 0 then f else f + 1

/-- Python `f"{q:.1f}"`: fixed-point rendering with exactly one digit after
the decimal point, correctly rounded (ties to even). -/
def formatFixed1 (q : ℚ) : String :=
  let n := roundHalfEven (q * 10)
  let m := n.natAbs
  (if n < 0 then "-" else "") ++ Nat.repr (m / 10) ++ "." ++ Nat.repr (m % 10)

/-- Python `f"{q:.0f}"`: fixed-point rendering with no decimal point,
correctly rounded (ties to even). -/
def formatFixed0 (q : ℚ) : String :=
  let n := roundHalfEven q
  (if n < 0 then "-" else "") ++ Nat.repr n.natAbs

/-- Insert a comma after every third digit, counting from the right; the input
is the reversed digit list. -/
def commasAux : List Char → List Char
  | a :: b :: c :: d :: rest => a :: b :: c :: (',') :: commasAux (d :: rest)
  | l => l

/-- Group the digits of a digit string in threes with comma separators. -/
def addThousandsSeparators (s : String) : String :=
  String.mk (commasAux s.toList.reverse).reverse

/-- Python `f"{q:,.0f}"`: rounded to zero decimals (ties to even) with comma
thousands separators. -/
def formatComma0 (q : ℚ) : String :=
  let n := roundHalfEven q
  (if n < 0 then "-" else "") ++ addThousandsSeparators (Nat.repr n.natAbs)

/-- Python `s.rstrip(c)` for a single-character strip set: remove every
trailing occurrence of `c`. -/
def rstrip (c : Char) (s : String) : String :=
  String.mk ((s.toList.reverse.dropWhile (fun x => x = c)).reverse)

/-- Source: `k_format` (final.py lines 51-59).  Note the transcription is literal: the
`.rstrip('0').rstrip('.')` chain is applied to the string *after* the `"B"` /
`"M"` suffix has been appended, exactly as in the source. -/
def k_format (val : ℚ) : String :=
  if val ≥ 1000000000 then
    rstrip ('.') (rstrip ('0') (formatFixed1 (val / 1000000000) ++ "B"))
  else if val ≥ 1000000 then
    rstrip ('.') (rstrip ('0') (formatFixed1 (val / 1000000) ++ "M"))
  else if val ≥ 1000 then
    formatFixed0 (val / 1000) ++ "k"
  else
    formatComma0 val

end Dashboard

-- Batteries marks the `Rat` field operations `@[irreducible]`; concrete
-- evaluation by `decide` needs them unfolded.
set_option allowUnsafeReducibility true

section RatReducible

attribute [local semireducible] Rat.mul Rat.inv Rat.add Rat.sub Rat.ofScientific

namespace Dashboard

/- ---------------------------- helper lemmas ---------------------------- -/

theorem time_elapsed_seconds_nonneg (now : Datetime) :
    0 ≤ time_elapsed_seconds now :=
  le_max_left 0 _

theorem time_elapsed_seconds_le (now : Datetime) :
    time_elapsed_seconds now ≤ SECONDS_PER_DAY :=
  max_le (by norm_num [SECONDS_PER_DAY]) (min_le_right _ _)

/-- The common accrual bound: a nonnegative daily total divided by 86400 and
multiplied by a clamped elapsed-seconds value stays within `[0, total]`. -/
theorem rate_mul_elapsed_bounds (T : ℚ) (hT : 0 ≤ T) (now : Datetime) :
    0 ≤ (T / SECONDS_PER_DAY) * time_elapsed_seconds now ∧
      (T / SECONDS_PER_DAY) * time_elapsed_seconds now ≤ T := by
  have hrate : 0 ≤ T / SECONDS_PER_DAY := by
    apply div_nonneg hT
    norm_num [SECONDS_PER_DAY]
  constructor
  · exact mul_nonneg hrate (time_elapsed_seconds_nonneg now)
  · calc (T / SECONDS_PER_DAY) * time_elapsed_seconds now
        ≤ (T / SECONDS_PER_DAY) * SECONDS_PER_DAY :=
          mul_le_mul_of_nonneg_left (time_elapsed_seconds_le now) hrate
      _ = T := by norm_num [SECONDS_PER_DAY]

/- ----------------------------- the claims ------------------------------ -/

/-- C1: the spec claims that for `v ≥ 10^9` (resp. `10^6 ≤ v < 10^9`) the
result is `v / 10^9` (resp. `v / 10^6`) to one decimal place plus suffix "B"
(resp. "M") with a trailing zero and trailing decimal point stripped, so that
`k_format 2_000_000_000 = "2B"` and `k_format 2_000_000 = "2M"`.  The code
applies `.rstrip('0').rstrip('.')` to the string *after* the suffix has been
appended, so the strip never removes anything (the string always ends in the
suffix letter): the code actually returns "2.0B" and "2.0M".  Inputs whose
tenths digit is nonzero, such as 1_500_000_000, are unaffected. -/
theorem C1_k_format_trailing_zero_not_stripped :
    k_format 2000000000 = "2.0B" ∧ k_format 2000000 = "2.0M" ∧
      k_format 1500000000 = "1.5B" :=
  ⟨by decide, by decide, by decide⟩

/-- C2: for every datetime (fields deliberately unconstrained, so raw elapsed
seconds may fall outside the day), `time_elapsed_seconds` lands in the closed
interval `[0, 86400]` and the derived elapsed fraction lands in `[0, 1]`;
the function is total. -/
theorem C2_elapsed_seconds_and_fraction_clamped (now : Datetime) :
    0 ≤ time_elapsed_seconds now ∧ time_elapsed_seconds now ≤ 86400 ∧
      0 ≤ elapsed_fraction now ∧ elapsed_fraction now ≤ 1 := by
  have h0 := time_elapsed_seconds_nonneg now
  have h1 := time_elapsed_seconds_le now
  have hS : SECONDS_PER_DAY = (86400 : ℚ) := by norm_num [SECONDS_PER_DAY]
  refine ⟨h0, by rw [hS] at h1; exact h1, ?_, ?_⟩
  · exact div_nonneg h0 (by norm_num [SECONDS_PER_DAY])
  · rw [elapsed_fraction, div_le_one (by norm_num [SECONDS_PER_DAY])]
    exact h1

/-- C3: the accrual shape used by the three `*_so_far` functions — per-second
rate `D / 86400` times elapsed seconds `f * 86400` — equals `D * f` exactly
over exact (rational) arithmetic; it is `0` at `f = 0` and `D` at `f = 1`,
and each concrete `*_so_far` function is literally this shape instantiated
with its configured daily total and the elapsed fraction. -/
theorem C3_accrued_quantity_exact (D f : ℚ) (hD : 0 ≤ D) (hf0 : 0 ≤ f)
    (hf1 : f ≤ 1) :
    accrued_quantity D f = D * f ∧ accrued_quantity D 0 = 0 ∧
      accrued_quantity D 1 = D ∧
      ∀ now : Datetime,
        plastic_produced_so_far now
            = accrued_quantity TOTAL_DAILY_PLASTIC_KG (elapsed_fraction now) ∧
          ocean_plastic_entered_so_far now
            = accrued_quantity TOTAL_DAILY_OCEAN_PLASTIC_KG (elapsed_fraction now) ∧
          microplastic_ingested_so_far now
            = accrued_quantity TOTAL_DAILY_MICROPLASTIC_MG (elapsed_fraction now) := by
  refine ⟨?_, ?_, ?_, fun now => ⟨?_, ?_, ?_⟩⟩ <;>
    simp only [accrued_quantity, plastic_produced_so_far, PLASTIC_KG_PER_SECOND,
      ocean_plastic_entered_so_far, OCEAN_PLASTIC_KG_PER_SECOND,
      microplastic_ingested_so_far, MICROPLASTIC_MG_PER_SECOND,
      elapsed_fraction, SECONDS_PER_DAY] <;>
    ring

/-- C3 witness at `D = 2`, `f = 1/2`. -/
theorem C3_witness :
    (0 : ℚ) ≤ 2 ∧ (0 : ℚ) ≤ 1/2 ∧ (1/2 : ℚ) ≤ 1 ∧
      accrued_quantity 2 (1/2) = 2 * (1/2) :=
  ⟨by norm_num, by norm_num, by norm_num,
    (C3_accrued_quantity_exact 2 (1/2) (by norm_num) (by norm_num)
      (by norm_num)).1⟩

/-- C4: within one calendar day, as the wall clock advances (Python orders
two aware datetimes carrying the identical `tzinfo` object by their naive
fields, so within one day the order is exactly the order of raw wall-clock
seconds), `time_elapsed_seconds` is monotonically non-decreasing, it is `0`
at exactly local midnight, and every accrued quantity with a nonnegative
daily total — in particular the three concrete `*_so_far` functions — is
monotonically non-decreasing as well. -/
theorem C4_elapsed_and_accrued_monotone (t1 t2 : Datetime) (D : ℚ)
    (hday : sameCalendarDay t1 t2)
    (hle : rawElapsedSeconds t1 ≤ rawElapsedSeconds t2) (hD : 0 ≤ D) :
    time_elapsed_seconds t1 ≤ time_elapsed_seconds t2 ∧
      (isLocalMidnight t1 → time_elapsed_seconds t1 = 0) ∧
      (D / SECONDS_PER_DAY) * time_elapsed_seconds t1
        ≤ (D / SECONDS_PER_DAY) * time_elapsed_seconds t2 ∧
      plastic_produced_so_far t1 ≤ plastic_produced_so_far t2 ∧
      ocean_plastic_entered_so_far t1 ≤ ocean_plastic_entered_so_far t2 ∧
      microplastic_ingested_so_far t1 ≤ microplastic_ingested_so_far t2 := by
  have hmono : time_elapsed_seconds t1 ≤ time_elapsed_seconds t2 :=
    max_le_max le_rfl (min_le_min hle le_rfl)
  have hrate : ∀ T : ℚ, 0 ≤ T →
      (T / SECONDS_PER_DAY) * time_elapsed_seconds t1
        ≤ (T / SECONDS_PER_DAY) * time_elapsed_seconds t2 := by
    intro T hT
    apply mul_le_mul_of_nonneg_left hmono
    apply div_nonneg hT
    norm_num [SECONDS_PER_DAY]
  refine ⟨hmono, ?_, hrate D hD, ?_, ?_, ?_⟩
  · rintro ⟨h1, h2, h3, h4⟩
    simp [time_elapsed_seconds, rawElapsedSeconds, h1, h2, h3, h4, SECONDS_PER_DAY]
  · exact hrate TOTAL_DAILY_PLASTIC_KG (by norm_num [TOTAL_DAILY_PLASTIC_KG])
  · exact hrate TOTAL_DAILY_OCEAN_PLASTIC_KG
      (by norm_num [TOTAL_DAILY_OCEAN_PLASTIC_KG])
  · exact hrate TOTAL_DAILY_MICROPLASTIC_MG
      (by norm_num [TOTAL_DAILY_MICROPLASTIC_MG])

/-- C4 witness: 03:00:00 and 04:30:00 of 2026-01-15 with daily total 5. -/
theorem C4_witness :
    sameCalendarDay ⟨2026, 1, 15, 3, 0, 0, 0⟩ ⟨2026, 1, 15, 4, 30, 0, 0⟩ ∧
      rawElapsedSeconds ⟨2026, 1, 15, 3, 0, 0, 0⟩
        ≤ rawElapsedSeconds ⟨2026, 1, 15, 4, 30, 0, 0⟩ ∧
      (0 : ℚ) ≤ 5 ∧
      time_elapsed_seconds ⟨2026, 1, 15, 3, 0, 0, 0⟩
        ≤ time_elapsed_seconds ⟨2026, 1, 15, 4, 30, 0, 0⟩ :=
  ⟨⟨rfl, rfl, rfl⟩, by decide, by norm_num,
    (C4_elapsed_and_accrued_monotone ⟨2026, 1, 15, 3, 0, 0, 0⟩
      ⟨2026, 1, 15, 4, 30, 0, 0⟩ 5 ⟨rfl, rfl, rfl⟩ (by decide) (by norm_num)).1⟩

/-- C5: at exactly local midnight every accrued quantity and every derived
comparison value is `0`; at exactly 12:00:00 local time each accrued quantity
equals exactly half its configured full-day total, in particular plastic
produced equals `1260273973 / 2 = 630136986.5` kg. -/
theorem C5_midnight_zero_noon_half (t0 t12 : Datetime)
    (h0 : isLocalMidnight t0) (h12 : isLocalNoon t12) :
    plastic_produced_so_far t0 = 0 ∧
      ocean_plastic_entered_so_far t0 = 0 ∧
      microplastic_ingested_so_far t0 = 0 ∧
      plastic_to_cars (plastic_produced_so_far t0) = 0 ∧
      ocean_to_statues (ocean_plastic_entered_so_far t0) = 0 ∧
      credit_card_equiv (microplastic_ingested_so_far t0) = 0 ∧
      plastic_produced_so_far t12 = 1260273973 / 2 ∧
      plastic_produced_so_far t12 = 6301369865 / 10 ∧
      ocean_plastic_entered_so_far t12 = 30136986 / 2 ∧
      microplastic_ingested_so_far t12 = 714 / 2 := by
  obtain ⟨a0, b0, c0, d0⟩ := h0
  obtain ⟨a1, b1, c1, d1⟩ := h12
  have e0 : time_elapsed_seconds t0 = 0 := by
    simp [time_elapsed_seconds, rawElapsedSeconds, a0, b0, c0, d0, SECONDS_PER_DAY]
  have e12 : time_elapsed_seconds t12 = 43200 := by
    norm_num [time_elapsed_seconds, rawElapsedSeconds, a1, b1, c1, d1, SECONDS_PER_DAY]
  refine ⟨?_, ?_, ?_, ?_, ?_, ?_, ?_, ?_, ?_, ?_⟩ <;>
    norm_num [plastic_produced_so_far, ocean_plastic_entered_so_far,
      microplastic_ingested_so_far, plastic_to_cars, ocean_to_statues,
      credit_card_equiv, PLASTIC_KG_PER_SECOND, OCEAN_PLASTIC_KG_PER_SECOND,
      MICROPLASTIC_MG_PER_SECOND, TOTAL_DAILY_PLASTIC_KG,
      TOTAL_DAILY_OCEAN_PLASTIC_KG, TOTAL_DAILY_MICROPLASTIC_MG,
      SECONDS_PER_DAY, e0, e12]

/-- C5 witness: midnight and noon of 2026-01-15. -/
theorem C5_witness :
    isLocalMidnight ⟨2026, 1, 15, 0, 0, 0, 0⟩ ∧
      isLocalNoon ⟨2026, 1, 15, 12, 0, 0, 0⟩ ∧
      plastic_produced_so_far ⟨2026, 1, 15, 0, 0, 0, 0⟩ = 0 :=
  ⟨⟨rfl, rfl, rfl, rfl⟩, ⟨rfl, rfl, rfl, rfl⟩,
    (C5_midnight_zero_noon_half ⟨2026, 1, 15, 0, 0, 0, 0⟩
      ⟨2026, 1, 15, 12, 0, 0, 0⟩ ⟨rfl, rfl, rfl, rfl⟩ ⟨rfl, rfl, rfl, rfl⟩).1⟩

/-- C6: for a nonnegative daily total and a fraction in `[0, 1]`, the accrued
quantity lies in `[0, D]`; likewise each concrete `*_so_far` value, computed
from the clamped elapsed seconds, lies between `0` and its daily total. -/
theorem C6_accrued_quantity_in_range (D f : ℚ) (hD : 0 ≤ D) (hf0 : 0 ≤ f)
    (hf1 : f ≤ 1) :
    (0 ≤ accrued_quantity D f ∧ accrued_quantity D f ≤ D) ∧
      ∀ now : Datetime,
        (0 ≤ plastic_produced_so_far now ∧
          plastic_produced_so_far now ≤ TOTAL_DAILY_PLASTIC_KG) ∧
        (0 ≤ ocean_plastic_entered_so_far now ∧
          ocean_plastic_entered_so_far now ≤ TOTAL_DAILY_OCEAN_PLASTIC_KG) ∧
        (0 ≤ microplastic_ingested_so_far now ∧
          microplastic_ingested_so_far now ≤ TOTAL_DAILY_MICROPLASTIC_MG) := by
  have hDf : accrued_quantity D f = D * f := by
    simp only [accrued_quantity, SECONDS_PER_DAY]
    ring
  refine ⟨⟨?_, ?_⟩, fun now => ⟨?_, ?_, ?_⟩⟩
  · rw [hDf]; exact mul_nonneg hD hf0
  · rw [hDf]; exact mul_le_of_le_one_right hD hf1
  · exact rate_mul_elapsed_bounds TOTAL_DAILY_PLASTIC_KG
      (by norm_num [TOTAL_DAILY_PLASTIC_KG]) now
  · exact rate_mul_elapsed_bounds TOTAL_DAILY_OCEAN_PLASTIC_KG
      (by norm_num [TOTAL_DAILY_OCEAN_PLASTIC_KG]) now
  · exact rate_mul_elapsed_bounds TOTAL_DAILY_MICROPLASTIC_MG
      (by norm_num [TOTAL_DAILY_MICROPLASTIC_MG]) now

/-- C6 witness at `D = 3`, `f = 1/3`. -/
theorem C6_witness :
    (0 : ℚ) ≤ 3 ∧ (0 : ℚ) ≤ 1/3 ∧ (1/3 : ℚ) ≤ 1 ∧
      0 ≤ accrued_quantity 3 (1/3) ∧ accrued_quantity 3 (1/3) ≤ 3 :=
  ⟨by norm_num, by norm_num, by norm_num,
    (C6_accrued_quantity_in_range 3 (1/3) (by norm_num) (by norm_num)
      (by norm_num)).1.1,
    (C6_accrued_quantity_in_range 3 (1/3) (by norm_num) (by norm_num)
      (by norm_num)).1.2⟩

/-- C7: the exact formatting test vectors of the spec all hold on the code:
`999 → "999"`, `1500 → "2k"` (ties round to even), `12345 → "12k"`,
`1_500_000 → "1.5M"`, `1_260_273_973 → "1.3B"`. -/
theorem C7_k_format_spec_vectors :
    k_format 999 = "999" ∧ k_format 1500 = "2k" ∧ k_format 12345 = "12k" ∧
      k_format 1500000 = "1.5M" ∧ k_format 1260273973 = "1.3B" :=
  ⟨by decide, by decide, by decide, by decide, by decide⟩

/-- C8: with the configured ratio of 1500 kg per car, 1500 kg maps to exactly
1 car and 3000 kg to exactly 2 cars. -/
theorem C8_cars_comparison_exact :
    plastic_to_cars 1500 = 1 ∧ plastic_to_cars 3000 = 2 := by
  constructor <;> norm_num [plastic_to_cars]

/-- C9: the two variant formulas for the credit-card-equivalent metric,
`(m / 5000) * 7 * 100` (the spec's other variant) and `((m * 7) / 5000) * 100`
(the code, final.py line 175), agree for every nonnegative `m`. -/
theorem C9_credit_card_variants_agree (m : ℚ) (hm : 0 ≤ m) :
    credit_card_equiv_variant m = credit_card_equiv m := by
  simp only [credit_card_equiv_variant, credit_card_equiv]
  ring

/-- C9 witness at `m = 5000`. -/
theorem C9_witness :
    (0 : ℚ) ≤ 5000 ∧
      credit_card_equiv_variant 5000 = credit_card_equiv 5000 :=
  ⟨by norm_num, C9_credit_card_variants_agree 5000 (by norm_num)⟩

/-- C10: the input `999.6 = 4998/5` is nonnegative and strictly below the
1000 threshold, takes the "otherwise" branch, and is rendered as `"1,000"` —
thousands separator, no "k" suffix — while `k_format 1000 = "1k"`. -/
theorem C10_boundary_comma_no_suffix :
    (0 : ℚ) ≤ 4998/5 ∧ (4998/5 : ℚ) < 1000 ∧
      k_format (4998/5) = "1,000" ∧ k_format 1000 = "1k" :=
  ⟨by norm_num, by norm_num, by decide, by decide⟩

end Dashboard

end RatReducible
